import Mathlib

/-!
Verification of the trajectory-derivation pipeline of `map-maker.py`.

The source program reads GPS rows (fields `timestamp`, `position`,
`country_code`, `route_id`), parses the timestamp and position fields,
optionally deduplicates, sorts by parsed timestamp, assigns 1-based sequence
numbers and computes per-point haversine distance and average speed
(`process_data`, lines 79-132), then renders a map (`create_map`,
lines 134-226; rendering proper is out of scope, only its empty-input
dispatch is modelled).  Command-line and CSV-file handling
(`parse_arguments`, `read_csv`, `main`) are I/O glue outside the pipeline
and are not modelled.

Modelling conventions:
- Python `datetime` instants are modelled as integers counting microseconds
  from day 0 of the proleptic Gregorian calendar (the resolution of
  `datetime.strptime` with `%f`); differences and ordering agree with the
  source.
- Python `float` values originating from decimal text are modelled as exact
  rationals (`mkRat`); IEEE-754 rounding is not modelled.  Transcendental
  arithmetic (`sin`, `cos`, `sqrt`, `atan2`) is modelled over the real
  numbers.
- Fallible parsing (`try`/`except` returning `None`) is modelled with
  `Option`; the two uncaught exceptions of the pipeline — the `TypeError`
  raised by `DataFrame.drop_duplicates` on this data (see
  `drop_duplicates` below) and the `AttributeError` raised by the `.dt`
  accessor when no timestamp parsed (see `dtAccessorError` below) — are
  modelled with `Except`.
-/

namespace MapMaker

/-- Python regex `\s` on the ASCII range: the whitespace characters
recognised inside the `re.match` patterns modelled below. -/
def pyIsSpace (c : Char) : Bool :=
  c = ' ' || c = '\t' || c = '\n' || c = '\r' || c = '\x0b' || c = '\x0c'

/-- Value of a list of decimal digit characters, most significant first. -/
def digitsToNat (l : List Char) : Nat :=
  l.foldl (fun acc c => 10 * acc + (c.toNat - 48)) 0

/-- Python `float(s)` restricted to the unsigned part: accepts
`digits`, `digits.digits`, `digits.` and `.digits`, rejecting everything
else (in the source, `float` is only applied to strings drawn from the
character class `[-\d.]+`, so exponents, `inf`/`nan`, underscores and
whitespace can never occur).  The decimal value is returned exactly. -/
def pyFloatCore (l : List Char) : Option ℚ :=
  let ip := l.takeWhile Char.isDigit
  let rest := l.dropWhile Char.isDigit
  if rest.isEmpty then
    if ip.isEmpty then none else some (mkRat (digitsToNat ip) 1)
  else if rest.head? = some '.' then
    let fp := rest.tail.takeWhile Char.isDigit
    let rest2 := rest.tail.dropWhile Char.isDigit
    if rest2.isEmpty && !(ip.isEmpty && fp.isEmpty) then
      some (mkRat (digitsToNat ip * 10 ^ fp.length + digitsToNat fp) (10 ^ fp.length))
    else none
  else none

/-- Python `float(s)`: an optional leading minus sign followed by an
unsigned decimal (`pyFloatCore`).  A plus sign is impossible here because
`+` is not in the regex character class feeding this function. -/
def pyFloat (l : List Char) : Option ℚ :=
  if l.head? = some '-' then (pyFloatCore l.tail).map Neg.neg
  else pyFloatCore l

/-- The regex character class `[-\d.]` of `extract_coordinates` (line 41). -/
def numClass (c : Char) : Bool :=
  c = '-' || c = '.' || c.isDigit

/-- Model of `re.match(r"POINT\s*\(\s*([-\d.]+)\s+([-\d.]+)\s*\)", s)`
(line 41): on success, the two captured groups and the input remaining
after the closing parenthesis.  `re.match` anchors at the start of the
string only, so trailing input is legal and is returned for inspection
(`extract_coordinates` ignores it).  The scan below is the deterministic
reading of the regex: each `[-\d.]+` group is a maximal run of class
characters, because on backtracking to a shorter run the following
character would still belong to the class and so could match neither
`\s+` nor `\s*\)`; likewise each `\s*`/`\s+` is a maximal whitespace run
because `(`, `)` and the class characters are not whitespace. -/
def pointGroups (l : List Char) : Option (List Char × List Char × List Char) :=
  if l.take 5 = ['P', 'O', 'I', 'N', 'T'] then
    match (l.drop 5).dropWhile pyIsSpace with
    | '(' :: l2 =>
      let l3 := l2.dropWhile pyIsSpace
      let g1 := l3.takeWhile numClass
      let l4 := l3.dropWhile numClass
      let sep := l4.takeWhile pyIsSpace
      let l5 := l4.dropWhile pyIsSpace
      let g2 := l5.takeWhile numClass
      let l6 := l5.dropWhile numClass
      if g1.isEmpty || sep.isEmpty || g2.isEmpty then none
      else
        match l6.dropWhile pyIsSpace with
        | ')' :: rest => some (g1, g2, rest)
        | _ => none
    | _ => none
  else none

/-- `extract_coordinates` (lines 38-48): match the `POINT (x y)` pattern,
convert both groups with `float`, and return `[lat, lon]` — the source
order is longitude first, and the function deliberately returns the pair
reversed.  A failed regex match or a `ValueError` from either `float`
conversion is caught and yields `None`. -/
def extract_coordinates (s : String) : Option (ℚ × ℚ) :=
  match pointGroups s.data with
  | none => none
  | some (g1, g2, _) =>
    match pyFloat g1, pyFloat g2 with
    | some lon, some lat => some (lat, lon)
    | _, _ => none

/-- Grammar of the decimal numbers accepted by `float` on class
characters, written from the specification side: `digits`,
`digits.digits`, `digits.` or `.digits`, unsigned. -/
def unsignedDecimalShape (l : List Char) : Bool :=
  let ip := l.takeWhile Char.isDigit
  let rest := l.dropWhile Char.isDigit
  if rest.isEmpty then !ip.isEmpty
  else if rest.head? = some '.' then
    (rest.tail.dropWhile Char.isDigit).isEmpty &&
      !(ip.isEmpty && (rest.tail.takeWhile Char.isDigit).isEmpty)
  else false

/-- A signed decimal number: optional minus sign, then `unsignedDecimalShape`. -/
def signedDecimalShape (l : List Char) : Bool :=
  if l.head? = some '-' then unsignedDecimalShape l.tail
  else unsignedDecimalShape l

/-- Modelled from the spec: the position grammar `POINT (<lon> <lat>)`
with `<lon>` and `<lat>` signed decimal numbers separated by whitespace,
covering the whole string (nothing may follow the closing parenthesis). -/
def specPointShape (l : List Char) : Bool :=
  match pointGroups l with
  | some (g1, g2, rest) => signedDecimalShape g1 && signedDecimalShape g2 && rest.isEmpty
  | none => false

/-- Modelled from the spec, relaxed by exactly what `re.match` forces:
the same grammar as `specPointShape` but matched as a prefix, with
arbitrary trailing input after the closing parenthesis. -/
def relaxedPointShape (l : List Char) : Bool :=
  match pointGroups l with
  | some (g1, g2, _) => signedDecimalShape g1 && signedDecimalShape g2
  | none => false

/-- Lowercased three-letter month abbreviations of the C locale, the
alternatives generated for `%b` by Python `_strptime.TimeRE` (matched
case-insensitively). -/
def monthNames : List (List Char) :=
  ["jan".data, "feb".data, "mar".data, "apr".data, "may".data, "jun".data,
   "jul".data, "aug".data, "sep".data, "oct".data, "nov".data, "dec".data]

/-- Match `%b`: three input characters, lowercased, against the month
alternatives; returns the month number 1-12 and the remaining input. -/
def readMonth (l : List Char) : Option (Nat × List Char) :=
  match monthNames.findIdx? (fun m => m = (l.take 3).map Char.toLower) with
  | some i => some (i + 1, l.drop 3)
  | none => none

/-- Match one literal character. -/
def lit1 (c : Char) : List Char → Option (List Char)
  | x :: r => if x = c then some r else none
  | [] => none

/-- Match `\s+` (a literal space in a `strptime` format becomes `\s+`):
at least one whitespace character, consumed maximally. -/
def ws1 (l : List Char) : Option (List Char) :=
  if (l.takeWhile pyIsSpace).isEmpty then none else some (l.dropWhile pyIsSpace)

/-- Maximal run of decimal digits and the remaining input. -/
def digitRun (l : List Char) : List Char × List Char :=
  (l.takeWhile Char.isDigit, l.dropWhile Char.isDigit)

/-- Match `%d`, regex `(3[01]|[12]\d|0[1-9]|[1-9])`: one digit `1`-`9`, or
two digits with value `01`-`31`.  A longer digit run cannot match because
every alternative leaves a digit which the following literal then
rejects. -/
def readDay (l : List Char) : Option (Nat × List Char) :=
  let (run, rest) := digitRun l
  if run.length = 1 && 1 ≤ digitsToNat run then some (digitsToNat run, rest)
  else if run.length = 2 && 1 ≤ digitsToNat run && digitsToNat run ≤ 31 then
    some (digitsToNat run, rest)
  else none

/-- Match `%Y`, regex `(\d\d\d\d)`: exactly four digits. -/
def readYear (l : List Char) : Option (Nat × List Char) :=
  let (run, rest) := digitRun l
  if run.length = 4 then some (digitsToNat run, rest) else none

/-- Match `%H`, regex `(2[0-3]|[0-1]\d|\d)`: one digit, or two digits with
value at most 23. -/
def readHour (l : List Char) : Option (Nat × List Char) :=
  let (run, rest) := digitRun l
  if run.length = 1 then some (digitsToNat run, rest)
  else if run.length = 2 && digitsToNat run ≤ 23 then some (digitsToNat run, rest)
  else none

/-- Match `%M`, regex `([0-5]\d|\d)`: one digit, or two digits up to 59. -/
def readMinute (l : List Char) : Option (Nat × List Char) :=
  let (run, rest) := digitRun l
  if run.length = 1 then some (digitsToNat run, rest)
  else if run.length = 2 && digitsToNat run ≤ 59 then some (digitsToNat run, rest)
  else none

/-- Match `%S`, regex `(6[0-1]|[0-5]\d|\d)`: one digit, or two digits up
to 61 (the leap-second values 60 and 61 pass the regex and are rejected
later by the `datetime` constructor). -/
def readSecond (l : List Char) : Option (Nat × List Char) :=
  let (run, rest) := digitRun l
  if run.length = 1 then some (digitsToNat run, rest)
  else if run.length = 2 && digitsToNat run ≤ 61 then some (digitsToNat run, rest)
  else none

/-- Match `%f`, regex `([0-9]{1,6})`, and scale to microseconds exactly as
`_strptime` does: `int(z) * 10 ** (6 - len(z))`.  A run of more than six
digits leaves unconverted digits behind, which the end-of-input check in
`parseTimestampChars` then rejects. -/
def readFrac (l : List Char) : Option (Nat × List Char) :=
  let (run, rest) := digitRun l
  if 1 ≤ run.length && run.length ≤ 6 then
    some (digitsToNat run * 10 ^ (6 - run.length), rest)
  else none

/-- Gregorian leap year, as in Python `calendar.isleap`. -/
def isLeap (y : Nat) : Bool :=
  y % 4 = 0 && (y % 100 ≠ 0 || y % 400 = 0)

/-- Length of a month, as in `datetime._days_in_month`. -/
def daysInMonth (y m : Nat) : Nat :=
  match m with
  | 1 => 31 | 2 => if isLeap y then 29 else 28 | 3 => 31 | 4 => 30
  | 5 => 31 | 6 => 30 | 7 => 31 | 8 => 31 | 9 => 30 | 10 => 31
  | 11 => 30 | 12 => 31
  | _ => 0

/-- Days in full years before year `y`, as in `datetime._days_before_year`. -/
def daysBeforeYear (y : Nat) : Nat :=
  let n := y - 1
  n * 365 + n / 4 - n / 100 + n / 400

/-- Days in full months of year `y` before month `m`. -/
def daysBeforeMonth (y m : Nat) : Nat :=
  (List.range 12).foldl (fun acc i => if i + 1 < m then acc + daysInMonth y (i + 1) else acc) 0

/-- Proleptic Gregorian ordinal of a date, as in `datetime.toordinal`
(January 1 of year 1 is day 1). -/
def toOrdinal (y m d : Nat) : Nat :=
  daysBeforeYear y + daysBeforeMonth y m + d

/-- Validation performed by the `datetime` constructor after the regex
match: `MINYEAR = 1` (four regex digits already bound the year by 9999),
the day must fit the month, and seconds above 59 (admitted by the `%S`
regex) are rejected.  On success, the instant in microseconds from day 0
of the proleptic Gregorian calendar. -/
def buildInstant (y mo d h mi s micro : Nat) : Option ℤ :=
  if 1 ≤ y && 1 ≤ d && d ≤ daysInMonth y mo && s ≤ 59 then
    some (((toOrdinal y mo d * 86400 + h * 3600 + mi * 60 + s) * 1000000 + micro : Nat) : ℤ)
  else none

/-- The compiled regex of
`datetime.strptime(s, "%b %d, %Y @ %H:%M:%S.%f")` applied to the whole
input: month, `\s+`, day, `,`, `\s+`, year, `\s+`, `@`, `\s+`, hour, `:`,
minute, `:`, second, `\.`, fraction, end of input (`_strptime` raises
`ValueError` on unconverted trailing data), followed by the constructor
validation of `buildInstant`. -/
def parseTimestampChars (l0 : List Char) : Option ℤ :=
  match readMonth l0 with
  | none => none
  | some (mo, l1) =>
    match ws1 l1 with
    | none => none
    | some l2 =>
      match readDay l2 with
      | none => none
      | some (d, l3) =>
        match lit1 ',' l3 with
        | none => none
        | some l4 =>
          match ws1 l4 with
          | none => none
          | some l5 =>
            match readYear l5 with
            | none => none
            | some (y, l6) =>
              match ws1 l6 with
              | none => none
              | some l7 =>
                match lit1 '@' l7 with
                | none => none
                | some l8 =>
                  match ws1 l8 with
                  | none => none
                  | some l9 =>
                    match readHour l9 with
                    | none => none
                    | some (h, l10) =>
                      match lit1 ':' l10 with
                      | none => none
                      | some l11 =>
                        match readMinute l11 with
                        | none => none
                        | some (mi, l12) =>
                          match lit1 ':' l12 with
                          | none => none
                          | some l13 =>
                            match readSecond l13 with
                            | none => none
                            | some (s, l14) =>
                              match lit1 '.' l14 with
                              | none => none
                              | some l15 =>
                                match readFrac l15 with
                                | none => none
                                | some (micro, l16) =>
                                  if l16.isEmpty then buildInstant y mo d h mi s micro
                                  else none

/-- `parse_timestamp` (lines 30-36): `datetime.strptime` with format
`"%b %d, %Y @ %H:%M:%S.%f"`; a `ValueError` is caught and reported as
`None`, dropping the row later. -/
def parse_timestamp (s : String) : Option ℤ :=
  parseTimestampChars s.data

/-- Capitalised month abbreviations as they appear in the spec examples. -/
def monthNamesCap : List (List Char) :=
  ["Jan".data, "Feb".data, "Mar".data, "Apr".data, "May".data, "Jun".data,
   "Jul".data, "Aug".data, "Sep".data, "Oct".data, "Nov".data, "Dec".data]

/-- Match a capitalised month abbreviation exactly (spec-side). -/
def readMonth3Cap (l : List Char) : Option (Nat × List Char) :=
  match monthNamesCap.findIdx? (fun m => m = l.take 3) with
  | some i => some (i + 1, l.drop 3)
  | none => none

/-- Modelled from the spec: the exact timestamp shape
`<abbreviated month> <day>, <year> @ <hour>:<minute>:<second>.<fraction>`
with the fraction of exactly three digits, as in the example
`Jun 28, 2024 @ 13:59:38.831`; single spaces, capitalised month
abbreviation, and the whole string consumed. -/
def specTimestampShape (l0 : List Char) : Bool :=
  match readMonth3Cap l0 with
  | none => false
  | some (_, l1) =>
    match lit1 ' ' l1 with
    | none => false
    | some l2 =>
      match readDay l2 with
      | none => false
      | some (_, l3) =>
        match lit1 ',' l3 with
        | none => false
        | some l4 =>
          match lit1 ' ' l4 with
          | none => false
          | some l5 =>
            match readYear l5 with
            | none => false
            | some (_, l6) =>
              match lit1 ' ' l6 with
              | none => false
              | some l7 =>
                match lit1 '@' l7 with
                | none => false
                | some l8 =>
                  match lit1 ' ' l8 with
                  | none => false
                  | some l9 =>
                    match readHour l9 with
                    | none => false
                    | some (_, l10) =>
                      match lit1 ':' l10 with
                      | none => false
                      | some l11 =>
                        match readMinute l11 with
                        | none => false
                        | some (_, l12) =>
                          match lit1 ':' l12 with
                          | none => false
                          | some l13 =>
                            match readSecond l13 with
                            | none => false
                            | some (_, l14) =>
                              match lit1 '.' l14 with
                              | none => false
                              | some l15 =>
                                let (run, l16) := digitRun l15
                                run.length = 3 && l16.isEmpty

/-- One CSV row with exactly the fields the pipeline touches: the two
parsed columns and the two passthrough columns read by the renderer. -/
structure RawRow where
  timestamp : String
  position : String
  country_code : String
  route_id : String
deriving DecidableEq

/-- A row that survived both `dropna` filters of `process_data`
(lines 81-86): the original row plus the `parsed_timestamp` column (an
instant, in microseconds) and the `coords` column `[lat, lon]`. -/
structure ParsedRow where
  raw : RawRow
  ts : ℤ
  lat : ℚ
  lon : ℚ
deriving DecidableEq

/-- Lines 81-82 of `process_data`: apply `parse_timestamp` to the
`timestamp` column and drop rows where it returned `None`.  Whether this
list is empty also records the dtype of the `parsed_timestamp` column:
the `Series.apply` at line 81 yields a column that pandas infers as
`datetime64[ns]` exactly when at least one value is a real `datetime`
(`None` entries become `NaT`); an all-`None` or empty result stays a
non-datetimelike (object/float) column, which makes line 106 raise —
see `process_data`. -/
def withTimestamps (rows : List RawRow) : List (RawRow × ℤ) :=
  rows.filterMap fun r => (parse_timestamp r.timestamp).map fun t => (r, t)

/-- Lines 85-86 of `process_data`: apply `extract_coordinates` to the
`position` column of the rows surviving timestamp parsing and drop rows
where it returned `None`. -/
def parseRows (rows : List RawRow) : List ParsedRow :=
  (withTimestamps rows).filterMap fun rt =>
    (extract_coordinates rt.1.position).map fun c => ⟨rt.1, rt.2, c.1, c.2⟩

/-- Line 89, `df.drop_duplicates()`.  Pandas deduplicates by factorizing
(hashing) every column; at this point the frame always carries the
`coords` column, whose cells are Python `list` objects (line 45), and
`hash` on a `list` raises `TypeError: unhashable type: "list"`.  The
exception is not caught anywhere in the program, so deduplication
crashes on every nonempty frame; on an empty frame `duplicated()`
returns early without hashing anything. -/
def drop_duplicates (l : List ParsedRow) : Except String (List ParsedRow) :=
  match l with
  | [] => Except.ok []
  | _ :: _ => Except.error "TypeError: unhashable type: list"

/-- Line 92, `df.sort_values("parsed_timestamp")`: sort the surviving
rows by parsed timestamp ascending.  The embedding sorts with a stable
merge sort; note that pandas defaults to numpy quicksort here, so only
properties that do not depend on the relative order of rows with equal
timestamps are claimed of this model. -/
def sortByTs (l : List ParsedRow) : List ParsedRow :=
  l.mergeSort fun a b => decide (a.ts ≤ b.ts)

/-- Python `math.radians`: degrees to radians. -/
noncomputable def radians (d : ℝ) : ℝ :=
  d * Real.pi / 180

/-- Python `math.atan2 y x`: the angle of the point `(x, y)`, by case on
the quadrant (signed-zero behaviour of the float version collapses to
the single `atan2 0 0 = 0` case over the reals). -/
noncomputable def atan2 (y x : ℝ) : ℝ :=
  if 0 < x then Real.arctan (y / x)
  else if x < 0 then
    (if 0 ≤ y then Real.arctan (y / x) + Real.pi else Real.arctan (y / x) - Real.pi)
  else if 0 < y then Real.pi / 2
  else if y < 0 then -(Real.pi / 2)
  else 0

/-- `haversine` (lines 50-77): great-circle distance in kilometers
between two points given in decimal degrees, with Earth radius
`R = 6371.0` km: `a = sin²(Δlat/2) + cos(lat1)·cos(lat2)·sin²(Δlon/2)`,
`c = 2·atan2(√a, √(1-a))`, `distance = R·c`. -/
noncomputable def haversine (lat1 lon1 lat2 lon2 : ℝ) : ℝ :=
  let R : ℝ := 6371.0
  let lat1_rad := radians lat1
  let lon1_rad := radians lon1
  let lat2_rad := radians lat2
  let lon2_rad := radians lon2
  let dlat := lat2_rad - lat1_rad
  let dlon := lon2_rad - lon1_rad
  let a := Real.sin (dlat / 2) ^ 2 +
    Real.cos lat1_rad * Real.cos lat2_rad * Real.sin (dlon / 2) ^ 2
  let c := 2 * atan2 (Real.sqrt a) (Real.sqrt (1 - a))
  R * c

/-- The `avg_speed_kmh` column value: either the string `"N/A"` or the
string `f"{speed:.2f} km/h"`.  The numeric speed is retained here; the
two-decimal rendering of a rational value is modelled separately by
`format2kmh`. -/
inductive SpeedVal where
  | na : SpeedVal
  | kmh : ℝ → SpeedVal

instance : Inhabited SpeedVal := ⟨SpeedVal.na⟩

/-- One row of the frame returned by `process_data`: the surviving parsed
row plus the `sequence`, `distance_km` and `avg_speed_kmh` columns
(the helper columns `prev_*`/`time_diff_hours` are dropped at
line 130). -/
structure TrajPoint where
  raw : RawRow
  parsed_timestamp : ℤ
  lat : ℚ
  lon : ℚ
  sequence : Nat
  distance_km : ℝ
  avg_speed_kmh : SpeedVal

noncomputable instance : Inhabited TrajPoint :=
  ⟨⟨⟨"", "", "", ""⟩, 0, 0, 0, 0, 0, SpeedVal.na⟩⟩

/-- Enrichment of one sorted row (lines 95-127).  `prev` is the row one
position earlier after sorting (the `shift(1)` columns), `none` on the
first row.  `distance_km` is `0.0` when the shifted latitude is null
(line 110), else the haversine distance from the previous point.
`avg_speed_kmh` is `"N/A"` when `sequence == 1` or when
`time_diff_hours <= 0`, else `distance_km / time_diff_hours`, where
`time_diff_hours` is the timestamp difference in seconds divided by 3600
(line 106); `prev` is `none` exactly on the row with `seq = 1`, so the
inner `match` arm for `none` is unreachable and mirrors the `NaN`
time difference of the first row. -/
noncomputable def mkPoint (seq : Nat) (prev : Option ParsedRow) (p : ParsedRow) : TrajPoint :=
  let dist : ℝ :=
    match prev with
    | none => 0
    | some q => haversine (q.lat : ℝ) (q.lon : ℝ) (p.lat : ℝ) (p.lon : ℝ)
  let speed : SpeedVal :=
    if seq = 1 then SpeedVal.na
    else
      match prev with
      | none => SpeedVal.na
      | some q =>
        let tdh : ℚ := ((p.ts - q.ts : ℤ) : ℚ) / 3600000000
        if tdh ≤ 0 then SpeedVal.na else SpeedVal.kmh (dist / (tdh : ℝ))
  ⟨p.raw, p.ts, p.lat, p.lon, seq, dist, speed⟩

/-- The sequential scan of lines 95-127 over the sorted rows: each row at
0-based position `i` receives `sequence = i + 1` (`df.index + 1` after
`reset_index`, line 95) and is enriched against its predecessor. -/
noncomputable def enrichFrom : Nat → Option ParsedRow → List ParsedRow → List TrajPoint
  | _, _, [] => []
  | n, prev, p :: rest => mkPoint n prev p :: enrichFrom (n + 1) (some p) rest

/-- The uncaught exception of line 106 when no timestamp parsed.  The
`parsed_timestamp` column produced by `apply` at line 81 becomes
`datetime64[ns]` only when at least one value is a real `datetime`; with
zero input rows, or when every timestamp fails to parse, it stays a
non-datetimelike column (and `dropna` does not change a dtype), the
subtraction at line 106 still succeeds on the then-empty frame, and the
`.dt` accessor raises this `AttributeError`, which nothing catches. -/
def dtAccessorError : String :=
  "AttributeError: Can only use .dt accessor with datetimelike values"

/-- `process_data` (lines 79-132): parse and filter, optionally
deduplicate (which raises on any nonempty frame, see
`drop_duplicates`), sort by parsed timestamp, and enrich with
sequence numbers, distances and speeds.  Two uncaught exceptions are
modelled, in source order: the `TypeError` of line 89 (any nonempty
frame with deduplication requested), and the `AttributeError` of
line 106 (no parseable timestamp at all, so the `parsed_timestamp`
column never became datetimelike — see `dtAccessorError`; with at least
one parsed timestamp the column is `datetime64[ns]` and the line is
harmless even on an empty frame, the per-row `apply` calls on an empty
frame being probed inside `try`/`except` by pandas). -/
noncomputable def process_data (rows : List RawRow) (remove_duplicates : Bool) :
    Except String (List TrajPoint) :=
  let withTs := withTimestamps rows
  let parsed := parseRows rows
  match (if remove_duplicates then drop_duplicates parsed else Except.ok parsed) with
  | Except.error e => Except.error e
  | Except.ok deduped =>
    if withTs.isEmpty then Except.error dtAccessorError
    else Except.ok (enrichFrom 1 none (sortByTs deduped))

/-- The two terminal states of `create_map` observable to the user. -/
inductive RenderOutcome where
  | nothingToDraw : RenderOutcome
  | mapSaved : RenderOutcome
deriving DecidableEq

/-- `create_map` (lines 134-226) as far as the spec covers it: on an
empty frame it prints `"No data available to plot."` and returns without
rendering (lines 135-137); otherwise it renders markers and saves the
map.  The rendering body is out of scope, only the dispatch is
modelled. -/
def create_map (df : List TrajPoint) : RenderOutcome :=
  if df.isEmpty then RenderOutcome.nothingToDraw else RenderOutcome.mapSaved

/-- Nearest integer to `100·q` with ties to even, the rounding used by
Python `format(v, ".2f")`; computed on the numerator so that it reduces
without rational arithmetic. -/
def roundHalfEvenAt2 (q : ℚ) : ℤ :=
  let t : ℤ := 100 * q.num
  let d : ℤ := (q.den : ℤ)
  let quot := t.fdiv d
  let rem := t.fmod d
  if 2 * rem < d then quot
  else if d < 2 * rem then quot + 1
  else if quot % 2 = 0 then quot else quot + 1

/-- Two-digit zero padding for the cents part. -/
def pad2 (n : Nat) : String :=
  if n < 10 then "0" ++ Nat.repr n else Nat.repr n

/-- The string `f"{v:.2f} km/h"` of line 125, for an exact rational
speed: the value rounded half-to-even at two decimals, rendered with two
fractional digits and the unit suffix. -/
def format2kmh (q : ℚ) : String :=
  let r := roundHalfEvenAt2 q
  let sign := if r < 0 then "-" else ""
  sign ++ Nat.repr (r.natAbs / 100) ++ "." ++ pad2 (r.natAbs % 100) ++ " km/h"

section Fixtures

/-- Sample row: a valid fix at 13:59:38.831 near San Francisco. -/
def rowA : RawRow :=
  ⟨"Jun 28, 2024 @ 13:59:38.831", "POINT (-122.4194 37.7749)", "US", "7"⟩

/-- Sample row: a valid fix exactly one hour after `rowA`. -/
def rowB : RawRow :=
  ⟨"Jun 28, 2024 @ 14:59:38.831", "POINT (-122.0 37.0)", "US", "7"⟩

/-- Sample row used to exercise deduplication. -/
def rowDup : RawRow :=
  ⟨"Jan 1, 2024 @ 00:00:00.000", "POINT (1 2)", "AA", "9"⟩

/-- Sample row whose ISO-style timestamp does not parse. -/
def rowBad : RawRow :=
  ⟨"2024-06-28 13:59:38", "POINT (1 2)", "AA", "9"⟩

/-- Sample row with a valid timestamp but an unparsable position. -/
def rowBadPos : RawRow :=
  ⟨"Jun 28, 2024 @ 13:59:38.831", "NOPE (1 2)", "AA", "9"⟩

/-- The parsed form of `rowA` (ordinal of 2024-06-28 is 739065). -/
def pA : ParsedRow :=
  ⟨rowA, (739065 * 86400 + 13 * 3600 + 59 * 60 + 38) * 1000000 + 831000,
    mkRat 377749 10000, mkRat (-1224194) 10000⟩

/-- The parsed form of `rowB`. -/
def pB : ParsedRow :=
  ⟨rowB, (739065 * 86400 + 14 * 3600 + 59 * 60 + 38) * 1000000 + 831000, 37, -122⟩

/-- The parsed form of `rowDup` (ordinal of 2024-01-01 is 738886). -/
def pD : ParsedRow :=
  ⟨rowDup, 738886 * 86400 * 1000000, 2, 1⟩

end Fixtures

section Lemmas

@[simp]
lemma mkPoint_raw (n : Nat) (prev : Option ParsedRow) (p : ParsedRow) :
    (mkPoint n prev p).raw = p.raw := rfl

@[simp]
lemma mkPoint_ts (n : Nat) (prev : Option ParsedRow) (p : ParsedRow) :
    (mkPoint n prev p).parsed_timestamp = p.ts := rfl

@[simp]
lemma mkPoint_lat (n : Nat) (prev : Option ParsedRow) (p : ParsedRow) :
    (mkPoint n prev p).lat = p.lat := rfl

@[simp]
lemma mkPoint_lon (n : Nat) (prev : Option ParsedRow) (p : ParsedRow) :
    (mkPoint n prev p).lon = p.lon := rfl

@[simp]
lemma mkPoint_sequence (n : Nat) (prev : Option ParsedRow) (p : ParsedRow) :
    (mkPoint n prev p).sequence = n := rfl

@[simp]
lemma mkPoint_distance_none (n : Nat) (p : ParsedRow) :
    (mkPoint n none p).distance_km = 0 := rfl

@[simp]
lemma mkPoint_distance_some (n : Nat) (q p : ParsedRow) :
    (mkPoint n (some q) p).distance_km =
      haversine (q.lat : ℝ) (q.lon : ℝ) (p.lat : ℝ) (p.lon : ℝ) := rfl

@[simp]
lemma mkPoint_speed_first (prev : Option ParsedRow) (p : ParsedRow) :
    (mkPoint 1 prev p).avg_speed_kmh = SpeedVal.na := rfl

lemma mkPoint_speed_succ (j : Nat) (q p : ParsedRow) :
    (mkPoint (j + 2) (some q) p).avg_speed_kmh =
      (if ((p.ts - q.ts : ℤ) : ℚ) / 3600000000 ≤ 0 then SpeedVal.na
       else SpeedVal.kmh
        ((haversine (q.lat : ℝ) (q.lon : ℝ) (p.lat : ℝ) (p.lon : ℝ)) /
          ((((p.ts - q.ts : ℤ) : ℚ) / 3600000000 : ℚ) : ℝ))) := rfl

@[simp]
lemma enrichFrom_nil (n : Nat) (prev : Option ParsedRow) :
    enrichFrom n prev [] = [] := rfl

@[simp]
lemma enrichFrom_cons (n : Nat) (prev : Option ParsedRow) (p : ParsedRow)
    (rest : List ParsedRow) :
    enrichFrom n prev (p :: rest) = mkPoint n prev p :: enrichFrom (n + 1) (some p) rest := rfl

@[simp]
lemma enrichFrom_length (l : List ParsedRow) :
    ∀ (n : Nat) (prev : Option ParsedRow), (enrichFrom n prev l).length = l.length := by
  induction l with
  | nil => intro n prev; rfl
  | cons p rest ih => intro n prev; simp [ih]

lemma enrichFrom_map_sequence (l : List ParsedRow) :
    ∀ (n : Nat) (prev : Option ParsedRow),
      (enrichFrom n prev l).map (fun pt => pt.sequence) = List.range' n l.length := by
  induction l with
  | nil => intro n prev; rfl
  | cons p rest ih => intro n prev; simp [List.range'_succ, ih]

lemma enrichFrom_map_raw (l : List ParsedRow) :
    ∀ (n : Nat) (prev : Option ParsedRow),
      (enrichFrom n prev l).map (fun pt => pt.raw) = l.map (fun p => p.raw) := by
  induction l with
  | nil => intro n prev; rfl
  | cons p rest ih => intro n prev; simp [ih]

lemma enrichFrom_getElem? (l : List ParsedRow) :
    ∀ (n : Nat) (prev : Option ParsedRow) (i : Nat),
      (enrichFrom n prev l)[i]? =
        (l[i]?).map (mkPoint (n + i) (if i = 0 then prev else l[i - 1]?)) := by
  induction l with
  | nil => intro n prev i; simp
  | cons p rest ih =>
    intro n prev i
    cases i with
    | zero => simp
    | succ j =>
      have := ih (n + 1) (some p) j
      rw [enrichFrom_cons, List.getElem?_cons_succ, this, List.getElem?_cons_succ]
      cases j with
      | zero => simp
      | succ k => simp [Nat.add_assoc, Nat.add_comm 1 (k + 1)]

lemma withTimestamps_cons_none (r : RawRow) (rows : List RawRow)
    (h : parse_timestamp r.timestamp = none) :
    withTimestamps (r :: rows) = withTimestamps rows := by
  simp [withTimestamps, List.filterMap_cons, h]

lemma withTimestamps_nil_of_malformed {rows : List RawRow}
    (h : ∀ r ∈ rows, parse_timestamp r.timestamp = none) :
    withTimestamps rows = [] := by
  induction rows with
  | nil => rfl
  | cons r rest ih =>
    rw [withTimestamps_cons_none r rest (h r (List.mem_cons_self r rest))]
    exact ih fun r hr => h r (List.mem_cons_of_mem _ hr)

lemma parseRows_cons_ts_none {r : RawRow} (rows : List RawRow)
    (h : parse_timestamp r.timestamp = none) :
    parseRows (r :: rows) = parseRows rows := by
  unfold parseRows
  rw [withTimestamps_cons_none r rows h]

lemma parseRows_nil_of_malformed {rows : List RawRow}
    (h : ∀ r ∈ rows, parse_timestamp r.timestamp = none ∨
      extract_coordinates r.position = none) :
    parseRows rows = [] := by
  induction rows with
  | nil => rfl
  | cons r rest ih =>
    have hrest := ih fun r hr => h r (List.mem_cons_of_mem _ hr)
    rcases h r (List.mem_cons_self r rest) with hts | hpos
    · rw [parseRows_cons_ts_none rest hts, hrest]
    · cases hts : parse_timestamp r.timestamp with
      | none => rw [parseRows_cons_ts_none rest hts, hrest]
      | some t =>
        have hstep : parseRows (r :: rest) = parseRows rest := by
          simp [parseRows, withTimestamps, List.filterMap_cons, hts, hpos]
        rw [hstep, hrest]

lemma process_data_false_eq (rows : List RawRow)
    (hw : (withTimestamps rows).isEmpty = false) :
    process_data rows false = Except.ok (enrichFrom 1 none (sortByTs (parseRows rows))) := by
  simp [process_data, hw]

lemma process_data_cons_ts_none (r : RawRow) (rows : List RawRow) (d : Bool)
    (h : parse_timestamp r.timestamp = none) :
    process_data (r :: rows) d = process_data rows d := by
  simp only [process_data, withTimestamps_cons_none r rows h, parseRows_cons_ts_none rows h]

lemma process_data_attrError (rows : List RawRow) (d : Bool)
    (h : ∀ r ∈ rows, parse_timestamp r.timestamp = none) :
    process_data rows d = Except.error dtAccessorError := by
  have hw : withTimestamps rows = [] := withTimestamps_nil_of_malformed h
  have hp : parseRows rows = [] := parseRows_nil_of_malformed fun r hr => Or.inl (h r hr)
  cases d with
  | false => simp [process_data, hp, hw]
  | true => simp [process_data, hp, hw, drop_duplicates]

lemma process_data_ok_empty_of_pos (rows : List RawRow) (d : Bool)
    (hw : (withTimestamps rows).isEmpty = false)
    (h : ∀ r ∈ rows, extract_coordinates r.position = none) :
    process_data rows d = Except.ok [] := by
  have hp : parseRows rows = [] := parseRows_nil_of_malformed fun r hr => Or.inr (h r hr)
  cases d with
  | false => simp [process_data, hp, hw, sortByTs]
  | true => simp [process_data, hp, hw, drop_duplicates, sortByTs]

lemma process_data_ok {rows : List RawRow} {d : Bool} {out : List TrajPoint}
    (h : process_data rows d = Except.ok out) :
    ∃ l, out = enrichFrom 1 none (sortByTs l) := by
  cases d with
  | false =>
    cases hw : (withTimestamps rows).isEmpty with
    | true =>
      have : process_data rows false = Except.error dtAccessorError := by
        simp [process_data, hw]
      rw [this] at h
      exact absurd h (by simp)
    | false =>
      rw [process_data_false_eq rows hw] at h
      exact ⟨parseRows rows, (Except.ok.inj h).symm⟩
  | true =>
    cases hp : parseRows rows with
    | cons a t =>
      have : process_data rows true = Except.error "TypeError: unhashable type: list" := by
        simp [process_data, hp, drop_duplicates]
      rw [this] at h
      exact absurd h (by simp)
    | nil =>
      cases hw : (withTimestamps rows).isEmpty with
      | true =>
        have : process_data rows true = Except.error dtAccessorError := by
          simp [process_data, hp, hw, drop_duplicates]
        rw [this] at h
        exact absurd h (by simp)
      | false =>
        have : process_data rows true = Except.ok (enrichFrom 1 none (sortByTs [])) := by
          simp [process_data, hp, hw, drop_duplicates]
        rw [this] at h
        exact ⟨[], (Except.ok.inj h).symm⟩

lemma atan2_bounds {y x : ℝ} (hy : 0 ≤ y) (hx : 0 ≤ x) :
    0 ≤ atan2 y x ∧ atan2 y x ≤ Real.pi / 2 := by
  unfold atan2
  by_cases hxp : 0 < x
  · rw [if_pos hxp]
    constructor
    · have := Real.arctan_strictMono.monotone (div_nonneg hy hx)
      simpa using this
    · exact (Real.arctan_lt_pi_div_two _).le
  · have hx0 : x = 0 := le_antisymm (not_lt.mp hxp) hx
    rw [if_neg hxp, if_neg (by rw [hx0]; exact lt_irrefl 0)]
    by_cases hyp : 0 < y
    · rw [if_pos hyp]
      exact ⟨le_of_lt (by positivity), le_refl _⟩
    · have hy0 : y = 0 := le_antisymm (not_lt.mp hyp) hy
      rw [if_neg hyp, if_neg (by rw [hy0]; exact lt_irrefl 0)]
      exact ⟨le_refl _, by positivity⟩

lemma haversine_bounds (lat1 lon1 lat2 lon2 : ℝ) :
    0 ≤ haversine lat1 lon1 lat2 lon2 ∧
      haversine lat1 lon1 lat2 lon2 ≤ Real.pi * 6371 := by
  have key : ∀ a : ℝ,
      0 ≤ (6371.0 : ℝ) * (2 * atan2 (Real.sqrt a) (Real.sqrt (1 - a))) ∧
        (6371.0 : ℝ) * (2 * atan2 (Real.sqrt a) (Real.sqrt (1 - a))) ≤ Real.pi * 6371 := by
    intro a
    have h := atan2_bounds (Real.sqrt_nonneg a) (Real.sqrt_nonneg (1 - a))
    have h0 : (6371.0 : ℝ) = 6371 := by norm_num
    rw [h0]
    exact ⟨by nlinarith [h.1, h.2], by nlinarith [h.1, h.2]⟩
  exact key _

lemma enrichFrom_distance_nonneg (l : List ParsedRow) :
    ∀ (n : Nat) (prev : Option ParsedRow) (pt : TrajPoint),
      pt ∈ enrichFrom n prev l → 0 ≤ pt.distance_km := by
  induction l with
  | nil => intro n prev pt h; simp at h
  | cons p rest ih =>
    intro n prev pt h
    rcases List.mem_cons.mp h with h1 | h2
    · subst h1
      cases prev with
      | none => simp
      | some q => simpa using (haversine_bounds _ _ _ _).1
    · exact ih (n + 1) (some p) pt h2

lemma enrichFrom_at (l : List ParsedRow) (i : Nat) (pt : TrajPoint)
    (h : (enrichFrom 1 none l)[i]? = some pt) :
    ∃ p, l[i]? = some p ∧
      pt = mkPoint (1 + i) (if i = 0 then none else l[i - 1]?) p := by
  rw [enrichFrom_getElem?] at h
  cases hp : l[i]? with
  | none =>
    rw [hp] at h
    exact Option.noConfusion h
  | some p =>
    rw [hp, show Option.map (mkPoint (1 + i) (if i = 0 then none else l[i - 1]?)) (some p) =
      some (mkPoint (1 + i) (if i = 0 then none else l[i - 1]?) p) from rfl] at h
    exact ⟨p, rfl, (Option.some.inj h).symm⟩

lemma enrichFrom_at_succ (l : List ParsedRow) (i : Nat) (pp : ParsedRow) (ptc : TrajPoint)
    (hpp : l[i]? = some pp)
    (hc : (enrichFrom 1 none l)[i + 1]? = some ptc) :
    ∃ pc, l[i + 1]? = some pc ∧ ptc = mkPoint (i + 2) (some pp) pc := by
  rw [enrichFrom_getElem?] at hc
  cases hcc : l[i + 1]? with
  | none =>
    rw [hcc] at hc
    exact Option.noConfusion hc
  | some pc =>
    rw [hcc, if_neg (Nat.succ_ne_zero i), Nat.add_sub_cancel, hpp] at hc
    rw [show (1 : Nat) + (i + 1) = i + 2 from by omega] at hc
    rw [show Option.map (mkPoint (i + 2) (some pp)) (some pc) =
      some (mkPoint (i + 2) (some pp) pc) from rfl] at hc
    exact ⟨pc, rfl, (Option.some.inj hc).symm⟩

lemma mkPoint_speed_of_ne_one (n : Nat) (hn : n ≠ 1) (q p : ParsedRow) :
    (mkPoint n (some q) p).avg_speed_kmh =
      (if ((p.ts - q.ts : ℤ) : ℚ) / 3600000000 ≤ 0 then SpeedVal.na
       else SpeedVal.kmh
        ((mkPoint n (some q) p).distance_km /
          ((((p.ts - q.ts : ℤ) : ℚ) / 3600000000 : ℚ) : ℝ))) := by
  simp only [mkPoint]
  rw [if_neg hn]

lemma pyFloatCore_isSome (l : List Char) :
    (pyFloatCore l).isSome = unsignedDecimalShape l := by
  simp only [pyFloatCore, unsignedDecimalShape]
  cases h1 : (l.dropWhile Char.isDigit).isEmpty with
  | true =>
    cases h2 : (l.takeWhile Char.isDigit).isEmpty with
    | true => simp
    | false => simp
  | false =>
    by_cases h2 : (l.dropWhile Char.isDigit).head? = some '.'
    · cases h3 : ((l.dropWhile Char.isDigit).tail.dropWhile Char.isDigit).isEmpty &&
          !((l.takeWhile Char.isDigit).isEmpty &&
            ((l.dropWhile Char.isDigit).tail.takeWhile Char.isDigit).isEmpty) with
      | true => simp [h2]
      | false => simp [h2]
    · simp [h2]

lemma pyFloat_isSome (l : List Char) :
    (pyFloat l).isSome = signedDecimalShape l := by
  unfold pyFloat signedDecimalShape
  by_cases h : l.head? = some '-' <;> simp [h, pyFloatCore_isSome]

lemma extract_isSome_eq_relaxed (s : String) :
    (extract_coordinates s).isSome = relaxedPointShape s.data := by
  unfold extract_coordinates relaxedPointShape
  cases h : pointGroups s.data with
  | none => simp
  | some g =>
    obtain ⟨g1, g2, rest⟩ := g
    dsimp only
    rw [← pyFloat_isSome g1, ← pyFloat_isSome g2]
    cases pyFloat g1 <;> cases pyFloat g2 <;> simp

end Lemmas

section Fixtures

lemma parseRows_AB : parseRows [rowA, rowB] = [pA, pB] := by decide

lemma parseRows_A : parseRows [rowA] = [pA] := by decide

lemma parseRows_dup : parseRows [rowDup, rowDup] = [pD, pD] := by decide

lemma sort_AB : sortByTs (parseRows [rowA, rowB]) = [pA, pB] := by
  rw [parseRows_AB]
  exact List.mergeSort_of_sorted (by decide)

lemma sort_A : sortByTs (parseRows [rowA]) = [pA] := by
  rw [parseRows_A]
  exact List.mergeSort_singleton pA

lemma sort_dup : sortByTs (parseRows [rowDup, rowDup]) = [pD, pD] := by
  rw [parseRows_dup]
  exact List.mergeSort_of_sorted (by decide)

end Fixtures

/-- Claim C1: whenever `process_data` returns a trajectory, the sequence
numbers read off in order are exactly `1, 2, ..., N` (the contiguous
range starting at 1, with no duplicates and no gaps), i.e. each point's
sequence is 1 plus its 0-based rank after sorting by timestamp; and with
deduplication disabled `N` is the number of rows surviving parsing. -/
theorem C1_sequence_contiguous (rows : List RawRow) (d : Bool) (out : List TrajPoint)
    (h : process_data rows d = Except.ok out) :
    out.map (fun pt => pt.sequence) = List.range' 1 out.length ∧
      (d = false → out.length = (parseRows rows).length) := by
  constructor
  · obtain ⟨l, rfl⟩ := process_data_ok h
    rw [enrichFrom_map_sequence, enrichFrom_length]
  · intro hd
    subst hd
    cases hw : (withTimestamps rows).isEmpty with
    | true =>
      have : process_data rows false = Except.error dtAccessorError := by
        simp [process_data, hw]
      rw [this] at h
      exact absurd h (by simp)
    | false =>
      rw [process_data_false_eq rows hw] at h
      have e := Except.ok.inj h
      rw [← e, enrichFrom_length, sortByTs, List.length_mergeSort]

/-- Witness for C1 at a concrete two-row input. -/
theorem C1_sequence_contiguous_witness :
    (enrichFrom 1 none (sortByTs (parseRows [rowA, rowB]))).map (fun pt => pt.sequence) =
      List.range' 1 (enrichFrom 1 none (sortByTs (parseRows [rowA, rowB]))).length :=
  (C1_sequence_contiguous [rowA, rowB] false _ rfl).1

/-- Claim C9: the code_bug evaluation.  The claim — an empty input set
(zero rows, or all rows dropped by parsing) is not an error and yields
an empty trajectory handed to the "nothing to draw" branch — is the
spec's clear intent (`create_map` has its own empty check), but the
code crashes on part of that domain: on zero input rows, and on inputs
where no timestamp parses, the `parsed_timestamp` column never becomes
datetimelike and line 106 raises the uncaught `AttributeError` of
`dtAccessorError`, for either setting of `remove_duplicates`.  Only the
sub-case in which at least one timestamp parses and the surviving rows
are then dropped (here: by position parsing) reaches the empty
trajectory, on which `create_map` does report "nothing to draw", while
a nonempty trajectory is rendered. -/
theorem C9_empty_input_crashes :
    process_data [] false = Except.error dtAccessorError ∧
    process_data [] true = Except.error dtAccessorError ∧
    process_data [rowBad] false = Except.error dtAccessorError ∧
    process_data [rowBad] true = Except.error dtAccessorError ∧
    process_data [rowBadPos] false = Except.ok [] ∧
    process_data [rowBadPos] true = Except.ok [] ∧
    create_map [] = RenderOutcome.nothingToDraw ∧
    create_map (enrichFrom 1 none [pD]) = RenderOutcome.mapSaved := by
  refine ⟨rfl, rfl, rfl, rfl, ?_, ?_, rfl, rfl⟩
  · exact process_data_ok_empty_of_pos [rowBadPos] false (by decide) (by decide)
  · exact process_data_ok_empty_of_pos [rowBadPos] true (by decide) (by decide)

/-- Claim C10: `haversine` lands in `[0, π·6371]` for all real inputs,
and every point of every trajectory returned by `process_data` carries a
nonnegative `distance_km` (the first point's `0.0` included). -/
theorem C10_distance_nonneg :
    (∀ lat1 lon1 lat2 lon2 : ℝ,
      0 ≤ haversine lat1 lon1 lat2 lon2 ∧
        haversine lat1 lon1 lat2 lon2 ≤ Real.pi * 6371) ∧
    (∀ (rows : List RawRow) (d : Bool) (out : List TrajPoint),
      process_data rows d = Except.ok out → ∀ pt ∈ out, 0 ≤ pt.distance_km) := by
  refine ⟨haversine_bounds, ?_⟩
  intro rows d out h pt hm
  obtain ⟨l, rfl⟩ := process_data_ok h
  exact enrichFrom_distance_nonneg _ _ _ _ hm

/-- Witness for C10: the first point of a concrete one-row run has a
nonnegative distance. -/
theorem C10_distance_nonneg_witness :
    0 ≤ (mkPoint 1 none pA).distance_km :=
  C10_distance_nonneg.2 [rowA] false _ rfl (mkPoint 1 none pA)
    (by rw [sort_A]; simp)

/-- Claim C3: in every trajectory returned by `process_data`, the point
at 0-based index `i + 1` (sequence `i + 2`) carries as `distance_km` the
haversine great-circle distance (Earth radius 6371.0 km, the formula of
`haversine`) to the point at index `i` (sequence `i + 1`), and the first
point always carries exactly `0.0`. -/
theorem C3_distance_from_predecessor (rows : List RawRow) (d : Bool)
    (out : List TrajPoint) (h : process_data rows d = Except.ok out) :
    (∀ pt0, out[0]? = some pt0 → pt0.distance_km = 0) ∧
    (∀ (i : Nat) (ptp ptc : TrajPoint), out[i]? = some ptp → out[i + 1]? = some ptc →
      ptc.distance_km =
        haversine (ptp.lat : ℝ) (ptp.lon : ℝ) (ptc.lat : ℝ) (ptc.lon : ℝ)) := by
  obtain ⟨l, rfl⟩ := process_data_ok h
  constructor
  · intro pt0 h0
    obtain ⟨p, _, hpt⟩ := enrichFrom_at (sortByTs l) 0 pt0 h0
    rw [hpt]
    simp
  · intro i ptp ptc hp hc
    obtain ⟨pp, hpp, hptp⟩ := enrichFrom_at (sortByTs l) i ptp hp
    obtain ⟨pc, _, hptc⟩ := enrichFrom_at_succ (sortByTs l) i pp ptc hpp hc
    rw [hptp, hptc]
    simp

/-- Witness for C3 at a concrete two-row input one hour apart. -/
theorem C3_distance_from_predecessor_witness :
    (mkPoint 1 none pA).distance_km = 0 ∧
    (mkPoint 2 (some pA) pB).distance_km =
      haversine ((mkPoint 1 none pA).lat : ℝ) ((mkPoint 1 none pA).lon : ℝ)
        ((mkPoint 2 (some pA) pB).lat : ℝ) ((mkPoint 2 (some pA) pB).lon : ℝ) := by
  have h := C3_distance_from_predecessor [rowA, rowB] false _ rfl
  exact ⟨h.1 (mkPoint 1 none pA) (by rw [sort_AB]; rfl), h.2 0 (mkPoint 1 none pA)
    (mkPoint 2 (some pA) pB) (by rw [sort_AB]; rfl) (by rw [sort_AB]; rfl)⟩

/-- Claim C4: in every trajectory returned by `process_data`, the first
point's average speed is the "N/A" sentinel; a later point's average
speed is the sentinel exactly when the elapsed time to its predecessor
is nonpositive, and otherwise equals its `distance_km` divided by the
elapsed hours (the timestamp difference in microseconds divided by
3.6e9); the two-decimal value-plus-unit rendering of the exact speed 10
is the string `10.00 km/h` (two points one hour apart at distance 10 km). -/
theorem C4_average_speed (rows : List RawRow) (d : Bool)
    (out : List TrajPoint) (h : process_data rows d = Except.ok out) :
    (∀ pt0, out[0]? = some pt0 → pt0.avg_speed_kmh = SpeedVal.na) ∧
    (∀ (i : Nat) (ptp ptc : TrajPoint), out[i]? = some ptp → out[i + 1]? = some ptc →
      ptc.avg_speed_kmh =
        (if ((ptc.parsed_timestamp - ptp.parsed_timestamp : ℤ) : ℚ) / 3600000000 ≤ 0
         then SpeedVal.na
         else SpeedVal.kmh
          (ptc.distance_km /
            ((((ptc.parsed_timestamp - ptp.parsed_timestamp : ℤ) : ℚ) / 3600000000 : ℚ) : ℝ)))) ∧
    format2kmh 10 = "10.00 km/h" := by
  obtain ⟨l, rfl⟩ := process_data_ok h
  refine ⟨?_, ?_, by decide⟩
  · intro pt0 h0
    obtain ⟨p, _, hpt⟩ := enrichFrom_at (sortByTs l) 0 pt0 h0
    rw [hpt]
    simp
  · intro i ptp ptc hp hc
    obtain ⟨pp, hpp, hptp⟩ := enrichFrom_at (sortByTs l) i ptp hp
    obtain ⟨pc, _, hptc⟩ := enrichFrom_at_succ (sortByTs l) i pp ptc hpp hc
    rw [hptp, hptc]
    rw [mkPoint_speed_of_ne_one (i + 2) (by omega) pp pc]
    simp

/-- Witness for C4 at a concrete two-row input one hour apart. -/
theorem C4_average_speed_witness :
    (mkPoint 1 none pA).avg_speed_kmh = SpeedVal.na ∧
    (mkPoint 2 (some pA) pB).avg_speed_kmh =
      (if ((((mkPoint 2 (some pA) pB).parsed_timestamp -
            (mkPoint 1 none pA).parsed_timestamp : ℤ) : ℚ) / 3600000000 ≤ 0)
       then SpeedVal.na
       else SpeedVal.kmh
        ((mkPoint 2 (some pA) pB).distance_km /
          (((((mkPoint 2 (some pA) pB).parsed_timestamp -
            (mkPoint 1 none pA).parsed_timestamp : ℤ) : ℚ) / 3600000000 : ℚ) : ℝ))) := by
  have h := C4_average_speed [rowA, rowB] false _ rfl
  exact ⟨h.1 (mkPoint 1 none pA) (by rw [sort_AB]; rfl), h.2.1 0 (mkPoint 1 none pA)
    (mkPoint 2 (some pA) pB) (by rw [sort_AB]; rfl) (by rw [sort_AB]; rfl)⟩

/-- Claim C5: whenever the `POINT` pattern matches with groups
`g1` (longitude text) and `g2` (latitude text) and both convert as
floats, `extract_coordinates` returns the pair in (latitude, longitude)
order — reversing the source order; in particular
`POINT (-122.4194 37.7749)` yields latitude 37.7749 and longitude
-122.4194. -/
theorem C5_latitude_longitude_reversal :
    (∀ (s : String) (g1 g2 rest : List Char) (lon lat : ℚ),
      pointGroups s.data = some (g1, g2, rest) →
      pyFloat g1 = some lon → pyFloat g2 = some lat →
      extract_coordinates s = some (lat, lon)) ∧
    extract_coordinates "POINT (-122.4194 37.7749)" = some (37.7749, -122.4194) := by
  constructor
  · intro s g1 g2 rest lon lat hg h1 h2
    unfold extract_coordinates
    rw [hg]
    dsimp only
    rw [h1, h2]
  · have e1 : (37.7749 : ℚ) = mkRat 377749 10000 := by
      rw [show (37.7749 : ℚ) = Rat.ofScientific 377749 true 4 from rfl, Rat.ofScientific_def]
      decide
    have e2 : (-122.4194 : ℚ) = mkRat (-1224194) 10000 := by
      rw [show (-122.4194 : ℚ) = -Rat.ofScientific 1224194 true 4 from rfl,
        Rat.ofScientific_def]
      decide
    rw [e1, e2]
    decide

/-- Witness for C5: the general reversal statement applied to the
concrete spec example. -/
theorem C5_latitude_longitude_reversal_witness :
    extract_coordinates "POINT (-122.4194 37.7749)" =
      some (mkRat 377749 10000, mkRat (-1224194) 10000) :=
  C5_latitude_longitude_reversal.1 "POINT (-122.4194 37.7749)"
    "-122.4194".data "37.7749".data [] (mkRat (-1224194) 10000) (mkRat 377749 10000)
    (by decide) (by decide) (by decide)

/-- Counterexample to C6 as stated: the timestamp
`Jun 28, 2024 @ 13:59:38.8` deviates from the exact documented shape
(its fractional second has one digit, not three), yet `parse_timestamp`
accepts it, because `strptime`'s `%f` matches one to six digits. -/
theorem C6_counterexample :
    specTimestampShape "Jun 28, 2024 @ 13:59:38.8".data = false ∧
      (parse_timestamp "Jun 28, 2024 @ 13:59:38.8").isSome = true := by
  decide

/-- Claim C6 as amended: `parse_timestamp` accepts the documented shape
with `strptime`'s leniencies (1-6 fractional digits, one- or two-digit
day/hour/minute/second, case-insensitive month, flexible whitespace
runs) and returns `None` on anything it cannot match — in particular on
the ISO-style `2024-06-28 13:59:38`; a row whose timestamp fails to
parse is dropped and `process_data` continues identically on the
remaining rows.  An input consisting only of such rows, however, does
not yield an empty result: with no parseable timestamp the
`parsed_timestamp` column never becomes datetimelike and line 106
raises the uncaught `AttributeError` of `dtAccessorError` (the code
bug recorded under C9). -/
theorem C6_malformed_timestamp_dropped :
    parse_timestamp "2024-06-28 13:59:38" = none ∧
    (parse_timestamp "Jun 28, 2024 @ 13:59:38.8").isSome = true ∧
    (∀ (r : RawRow) (rows : List RawRow) (d : Bool),
      parse_timestamp r.timestamp = none →
      process_data (r :: rows) d = process_data rows d) ∧
    (∀ (rows : List RawRow) (d : Bool),
      (∀ r ∈ rows, parse_timestamp r.timestamp = none) →
      process_data rows d = Except.error dtAccessorError) :=
  ⟨by decide, by decide, fun r rows d h => process_data_cons_ts_none r rows d h,
    fun rows d h => process_data_attrError rows d h⟩

/-- Witness for C6: the bad row is dropped and processing continues
identically with the remaining row; a run of only bad rows hits the
uncaught `.dt` accessor error. -/
theorem C6_malformed_timestamp_dropped_witness :
    process_data [rowBad, rowA] false = process_data [rowA] false ∧
      process_data [rowBad, rowBad] false = Except.error dtAccessorError :=
  ⟨C6_malformed_timestamp_dropped.2.2.1 rowBad [rowA] false (by decide),
    C6_malformed_timestamp_dropped.2.2.2 [rowBad, rowBad] false (by decide)⟩

/-- Counterexample to C7 as stated: `POINT (1.0 2.0)x` is outside the
grammar `POINT (<lon> <lat>)` (the closing parenthesis is not the end of
the string), yet `extract_coordinates` returns coordinates for it,
because `re.match` does not anchor at the end of the string. -/
theorem C7_counterexample :
    specPointShape "POINT (1.0 2.0)x".data = false ∧
      extract_coordinates "POINT (1.0 2.0)x" = some (2, 1) := by
  decide

/-- Claim C7 as amended: a position string yields coordinates exactly
when it matches the grammar `POINT (<lon> <lat>)` — with `<lon>` and
`<lat>` signed decimal numbers separated by whitespace, and whitespace
free around the parentheses — as a prefix: `re.match` ignores anything
after the closing parenthesis.  Every string outside this prefix
grammar is a parse failure and yields no `ParsedPoint`. -/
theorem C7_position_grammar :
    ∀ s : String, (extract_coordinates s).isSome = relaxedPointShape s.data :=
  extract_isSome_eq_relaxed

/-- Claim C8: the code_bug evaluation.  With `remove_duplicates=True`
and two fully identical (valid) rows, `process_data` does not collapse
them to one point: `df.drop_duplicates()` raises
`TypeError: unhashable type: 'list'` because the `coords` column holds
Python lists, so the run crashes; with `remove_duplicates=False` both
rows remain in the output. -/
theorem C8_duplicate_rows :
    process_data [rowDup, rowDup] true = Except.error "TypeError: unhashable type: list" ∧
    process_data [rowDup, rowDup] false =
      Except.ok (enrichFrom 1 none [pD, pD]) ∧
    (enrichFrom 1 none [pD, pD]).map (fun pt => pt.raw) = [rowDup, rowDup] := by
  refine ⟨rfl, ?_, ?_⟩
  · rw [process_data_false_eq [rowDup, rowDup] (by decide), sort_dup]
  · rw [enrichFrom_map_raw]
    decide

end MapMaker
